import Mathlib

/-!
# Verification of the IKnowEverything chat relay and persistence layer

Shallow embedding of the serverless chat relay function
(`supabase/functions/chat/index.ts`) and of the database schema /
row-level-security policies (SQL migration), together with proofs of the
specification's claims about them.

The relay is an HTTP handler.  Its interaction with the outside world
(JWT verification, database inserts, the history query's error channel,
the generation-API call) is modelled by an explicit environment of
oracles; the database of message rows is threaded through explicitly.
-/

namespace IKE

/-- A file attachment from the request body (`files` array): a MIME type
and a data URL string (`data:<mime>;base64,<payload>`). -/
structure FileAttachment where
  ftype : String
  fdata : String
deriving DecidableEq, Repr

/-- The parts of an incoming HTTP request the handler looks at:
the method, whether `req.json()` succeeds (`bodyValid`), the destructured
body fields (`message`, `conversationId`, `files` — `files` defaults to the
empty list, a missing/empty `message` is modelled as `""`, matching
JavaScript falsiness for the `!message` and `message ||`/`message ?` tests),
and the `authorization` header. -/
structure ChatRequest where
  method : String
  bodyValid : Bool
  message : String
  conversationId : String
  files : List FileAttachment
  authHeader : Option String
deriving DecidableEq, Repr

/-- A row of `public.messages` as the relay inserts it
(`conversation_id`, `content`, `role`, `user_id`), plus the
`created_at` timestamp column the schema fills with `now()`
(modelled as a `Nat`). -/
structure StoredMessage where
  conversation_id : String
  content : String
  role : String
  user_id : String
  created_at : Nat
deriving DecidableEq, Repr

/-- A row of `public.conversations` from the SQL migration:
`id`, `title`, `created_at`, `updated_at`. -/
structure Conversation where
  id : String
  title : String
  created_at : Nat
  updated_at : Nat
deriving DecidableEq, Repr

/-- One `parts` element of a Gemini message: either a text part or an
`inlineData` image part (MIME type and base64 payload). -/
inductive Part where
  | text (t : String)
  | inlineData (mimeType : String) (data : String)
deriving DecidableEq, Repr

/-- A message in the Gemini request `contents` array: a role
(`"user"` or `"model"`) and its parts. -/
structure GeminiMessage where
  role : String
  parts : List Part
deriving DecidableEq, Repr

/-- The payload sent to the generation API (the fields the claims are
about): the system instruction and the `contents` array. -/
structure GeminiRequest where
  systemInstruction : String
  contents : List GeminiMessage
deriving DecidableEq, Repr

/-- The HTTP response the handler produces: the CORS preflight response,
the success response (status 200, JSON body `{response, success: true}`),
or the error response from the catch block (status `s`, JSON body
`{error, success: false}`). -/
inductive ChatResponse where
  | preflight
  | ok (response : String)
  | err (status : Nat) (error : String)
deriving DecidableEq, Repr

/-- The HTTP status code of a response (`Response` defaults to 200). -/
def ChatResponse.statusCode : ChatResponse → Nat
  | .preflight => 200
  | .ok _ => 200
  | .err s _ => s

/-- The `success` flag in the JSON body, when the response has a body. -/
def ChatResponse.successFlag : ChatResponse → Option Bool
  | .preflight => none
  | .ok _ => some true
  | .err _ _ => some false

/-- The pipeline steps of the relay, in the order the code performs them,
used to record an execution trace. -/
inductive Step where
  | authenticate
  | persistUserMessage
  | fetchHistory
  | callGenerationApi
  | persistAssistantMessage
  | respond
deriving DecidableEq, Repr

/-- The oracles for the relay's external interactions:
`verifyUser jwt` is the outcome of `supabase.auth.getUser(jwt)` (`ok` the
user's id, `error` the failure message); `geminiApiKey` is
`Deno.env.get('GOOGLE_GEMINI_API_KEY')`; `userInsertError` /
`assistantInsertError` are the `error` fields of the two inserts (the
message of the database error, when the insert fails); `historyError`
says whether the history select returns an error; `geminiResponse` is the
generation-API outcome (`error (status, text)` for a non-ok HTTP response,
`ok reply` for `data.candidates[0].content.parts[0].text`). -/
structure Env where
  verifyUser : String → Except String String
  geminiApiKey : Option String
  userInsertError : Option String
  historyError : Bool
  geminiResponse : Except (Nat × String) String
  assistantInsertError : Option String

/-- `authHeader.replace('Bearer ', '')` — JavaScript `String.replace` with
a string pattern replaces only the first occurrence. -/
def stripBearer (s : String) : String :=
  match s.splitOn "Bearer " with
  | [] => s
  | [x] => x
  | x :: rest => x ++ String.intercalate "Bearer " rest

/-- The `created_at` value `now()` assigns to a fresh insert: strictly
larger than every timestamp already in the table. -/
def nextTimestamp (db : List StoredMessage) : Nat :=
  (db.map (·.created_at)).foldr max 0 + 1

/-- Comparison of message rows by their `created_at` column
(the `order('created_at', { ascending: true })` ordering). -/
def createdLe (a b : StoredMessage) : Prop :=
  a.created_at ≤ b.created_at

instance : DecidableRel createdLe := fun a b =>
  Nat.decLe a.created_at b.created_at

instance : IsTotal StoredMessage createdLe :=
  ⟨fun a b => Nat.le_total a.created_at b.created_at⟩

instance : IsTrans StoredMessage createdLe :=
  ⟨fun _ _ _ h h' => Nat.le_trans h h'⟩

/-- The rows of `messages` matching the history query's filters:
`.eq('conversation_id', conversationId).eq('user_id', user.id)`. -/
def matchingMessages (db : List StoredMessage) (cid uid : String) :
    List StoredMessage :=
  db.filter (fun m => m.conversation_id == cid && m.user_id == uid)

/-- The conversation-history query: filter by conversation and user,
`order('created_at', { ascending: true })`, `limit(20)`. -/
def historyQuery (db : List StoredMessage) (cid uid : String) :
    List StoredMessage :=
  ((matchingMessages db cid uid).insertionSort createdLe).take 20

/-- Formalisation of the SPEC's words, for comparison with
`historyQuery`: "fetch last N messages" with N = 20, i.e. the 20 most
recently created matching rows (in ascending `created_at` order). -/
def specLastN (db : List StoredMessage) (cid uid : String) :
    List StoredMessage :=
  let s := (matchingMessages db cid uid).insertionSort createdLe
  s.drop (s.length - 20)

/-- The `USING` predicate of the migration's row-level-security policy
`"Allow public access to messages"`: `USING (true)` for any requester
and any row. -/
def messagesPolicyUsing (_requester : String) (_m : StoredMessage) : Bool :=
  true

/-- The `WITH CHECK` predicate of the same policy: `WITH CHECK (true)`. -/
def messagesPolicyWithCheck (_requester : String) (_m : StoredMessage) : Bool :=
  true

/-- The `CHECK (role IN ('user', 'assistant'))` constraint on
`public.messages.role`. -/
def roleCheck (r : String) : Bool :=
  r == "user" || r == "assistant"

/-- The base64 payload of a data URL: `file.data.split(',')[1]`. -/
def dataUrlPayload (s : String) : String :=
  ((s.splitOn ",").drop 1).headD ""

/-- The `inlineData` parts pushed for the image attachments of `files`
(only files whose type starts with `image/`). -/
def imageParts (files : List FileAttachment) : List Part :=
  (files.filter (fun f => f.ftype.startsWith "image/")).map
    (fun f => Part.inlineData f.ftype (dataUrlPayload f.fdata))

/-- The `currentMessageParts` array: the message text (or
`"Please analyze this image."` when the message is empty), followed by the
image attachments' `inlineData` parts. -/
def currentMessageParts (message : String) (files : List FileAttachment) :
    List Part :=
  (if message = "" then [Part.text "Please analyze this image."]
   else [Part.text message]) ++ imageParts files

/-- The `geminiMessages` mapping over the context rows: each row becomes a
message with role `model` for `assistant` rows and `user` otherwise; the
image parts are appended to the last context row when it is a `user` row
and files are present. -/
def geminiMessages (context : List StoredMessage)
    (files : List FileAttachment) : List GeminiMessage :=
  context.mapIdx (fun i msg =>
    let parts := [Part.text msg.content]
    let parts :=
      if i = context.length - 1 ∧ msg.role = "user" ∧ files ≠ [] then
        parts ++ imageParts files
      else parts
    { role := if msg.role = "assistant" then "model" else "user"
      parts := parts })

/-- The system instruction string sent with every generation request. -/
def systemInstructionText : String :=
  "You are IKnowEverything, an intelligent AI assistant with vast knowledge and logical thinking capabilities. You understand and can discuss any topic with depth and accuracy. You think logically, provide comprehensive answers, and help users with any questions or tasks they have. You are knowledgeable, helpful, and can engage in meaningful conversations on any subject."

/-- The `messageContent` stored for the inbound message:
`message || '[Image analysis requested]'`. -/
def messageContent (message : String) : String :=
  if message = "" then "[Image analysis requested]" else message

/-- The row the relay inserts for the inbound user message. -/
def mkUserRow (req : ChatRequest) (uid : String)
    (db : List StoredMessage) : StoredMessage :=
  { conversation_id := req.conversationId
    content := messageContent req.message
    role := "user"
    user_id := uid
    created_at := nextTimestamp db }

/-- The row the relay inserts for the assistant reply. -/
def mkAssistantRow (req : ChatRequest) (uid reply : String)
    (db : List StoredMessage) : StoredMessage :=
  { conversation_id := req.conversationId
    content := reply
    role := "assistant"
    user_id := uid
    created_at := nextTimestamp db }

/-- The generation-API payload the relay builds after a successful user
insert (lines 82–164 of the handler): fetch the history (`none` on a
query error), default to `[]`, drop `system` rows, map to Gemini
messages, and append the current message's parts. -/
def geminiPayload (req : ChatRequest) (uid : String) (env : Env)
    (db : List StoredMessage) : GeminiRequest :=
  let db1 := db ++ [mkUserRow req uid db]
  let messages : Option (List StoredMessage) :=
    if env.historyError then none
    else some (historyQuery db1 req.conversationId uid)
  let contextMessages :=
    (messages.getD []).filter (fun m => m.role != "system")
  { systemInstruction := systemInstructionText
    contents := geminiMessages contextMessages req.files ++
      [{ role := "user"
         parts := currentMessageParts req.message req.files }] }

/-- The outcome of one handler invocation: the HTTP response, the state
of the `messages` table afterwards, the trace of pipeline steps reached
(in order), and the generation-API request that was sent, if the relay
got that far. -/
structure RelayResult where
  response : ChatResponse
  db : List StoredMessage
  trace : List Step
  geminiCall : Option GeminiRequest
deriving Repr

/-- The chat relay handler, translated statement by statement from
`supabase/functions/chat/index.ts`.  A `throw` in the source transfers to
the catch block, which returns status 500 with
`{error: error.message, success: false}`; here each throw site returns
that error response directly.  The Supabase client construction (which
cannot fail) and the `console.log`/`console.error` calls are elided. -/
def relay (req : ChatRequest) (env : Env) (db : List StoredMessage) :
    RelayResult :=
  if req.method = "OPTIONS" then
    { response := .preflight, db := db, trace := [], geminiCall := none }
  else if req.bodyValid = false then
    { response := .err 500 "Invalid request body", db := db, trace := []
      geminiCall := none }
  else if req.message = "" ∧ req.files = [] then
    { response := .err 500 "Either message or files must be provided"
      db := db, trace := [], geminiCall := none }
  else
    match req.authHeader with
    | none =>
      { response := .err 500 "No authorization header", db := db
        trace := [], geminiCall := none }
    | some authHeader =>
      let jwt := stripBearer authHeader
      match env.verifyUser jwt with
      | .error e =>
        { response := .err 500 ("User not authenticated: " ++ e)
          db := db, trace := [.authenticate], geminiCall := none }
      | .ok userId =>
        match env.geminiApiKey with
        | none =>
          { response := .err 500 "Google Gemini API key not found"
            db := db, trace := [.authenticate], geminiCall := none }
        | some _ =>
          match env.userInsertError with
          | some e =>
            { response := .err 500 e, db := db
              trace := [.authenticate, .persistUserMessage]
              geminiCall := none }
          | none =>
            let db1 := db ++ [mkUserRow req userId db]
            let request := geminiPayload req userId env db
            match env.geminiResponse with
            | .error (status, text) =>
              { response := .err 500
                  ("Google Gemini API error: " ++ toString status ++ " " ++ text)
                db := db1
                trace := [.authenticate, .persistUserMessage, .fetchHistory,
                  .callGenerationApi]
                geminiCall := some request }
            | .ok assistantMessage =>
              match env.assistantInsertError with
              | some e =>
                { response := .err 500 e, db := db1
                  trace := [.authenticate, .persistUserMessage, .fetchHistory,
                    .callGenerationApi, .persistAssistantMessage]
                  geminiCall := some request }
              | none =>
                { response := .ok assistantMessage
                  db := db1 ++ [mkAssistantRow req userId assistantMessage db1]
                  trace := [.authenticate, .persistUserMessage, .fetchHistory,
                    .callGenerationApi, .persistAssistantMessage, .respond]
                  geminiCall := some request }

/-- Referential integrity of `messages.conversation_id REFERENCES
public.conversations(id)`: every message row points at some conversation
row. -/
def refIntegrity (convs : List Conversation) (msgs : List StoredMessage) :
    Prop :=
  ∀ m ∈ msgs, ∃ c ∈ convs, c.id = m.conversation_id

/-- Deleting a conversation under `ON DELETE CASCADE` (modelled from the
SQL DDL in the migration): the conversation row is removed and every
message row referencing it is removed with it. -/
def deleteConversation (cid : String) (convs : List Conversation)
    (msgs : List StoredMessage) :
    List Conversation × List StoredMessage :=
  (convs.filter (fun c => c.id != cid),
   msgs.filter (fun m => m.conversation_id != cid))

/-- Shorthand for the success-path trace. -/
def fullTrace : List Step :=
  [.authenticate, .persistUserMessage, .fetchHistory, .callGenerationApi,
   .persistAssistantMessage, .respond]

/-! ### Concrete inputs used by witnesses and counterexamples -/

/-- A well-formed chat request. -/
def exReq : ChatRequest :=
  { method := "POST", bodyValid := true, message := "hi"
    conversationId := "c1", files := [], authHeader := some "Bearer tok" }

/-- An image-only chat request: empty message, one image attachment. -/
def exReqImageOnly : ChatRequest :=
  { method := "POST", bodyValid := true, message := ""
    conversationId := "c1"
    files := [{ ftype := "image/png", fdata := "data:image/png;base64,QUJD" }]
    authHeader := some "Bearer tok" }

/-- An environment in which every external interaction succeeds. -/
def exEnv : Env :=
  { verifyUser := fun _ => .ok "alice"
    geminiApiKey := some "key"
    userInsertError := none
    historyError := false
    geminiResponse := .ok "hello"
    assistantInsertError := none }

/-- Like `exEnv` but the generation API returns a non-ok HTTP status. -/
def exEnvGeminiFail : Env :=
  { exEnv with geminiResponse := .error (503, "overloaded") }

/-- Like `exEnv` but the history query returns an error. -/
def exEnvHistFail : Env :=
  { exEnv with historyError := true }

/-- Like `exEnv` but JWT verification fails. -/
def exEnvAuthFail : Env :=
  { exEnv with verifyUser := fun _ => .error "invalid claim" }

/-- A conversation of 21 matching messages with `created_at` 1..21. -/
def manyRows : List StoredMessage :=
  (List.range 21).map (fun i =>
    { conversation_id := "c1", content := "m", role := "user"
      user_id := "u1", created_at := i + 1 })

/-- The most recently created row of `manyRows`. -/
def newestRow : StoredMessage :=
  { conversation_id := "c1", content := "m", role := "user"
    user_id := "u1", created_at := 21 }

/-- The oldest row of `manyRows`. -/
def oldestRow : StoredMessage :=
  { conversation_id := "c1", content := "m", role := "user"
    user_id := "u1", created_at := 1 }

/-- A request without an `authorization` header. -/
def exReqNoAuth : ChatRequest :=
  { exReq with authHeader := none }

/-- A request with an empty message and no files. -/
def exReqEmpty : ChatRequest :=
  { exReq with message := "", files := [] }

/-- A message row owned by user `alice`. -/
def aliceRow : StoredMessage :=
  { conversation_id := "c1", content := "secret", role := "user"
    user_id := "alice", created_at := 1 }

/-! ## Branch characterizations of the relay -/

theorem relay_options_eq (req : ChatRequest) (env : Env)
    (db : List StoredMessage) (h1 : req.method = "OPTIONS") :
    relay req env db =
      { response := .preflight, db := db, trace := [], geminiCall := none } := by
  simp [relay, h1]

theorem relay_invalid_body_eq (req : ChatRequest) (env : Env)
    (db : List StoredMessage) (h1 : req.method ≠ "OPTIONS")
    (h2 : req.bodyValid = false) :
    relay req env db =
      { response := .err 500 "Invalid request body", db := db, trace := []
        geminiCall := none } := by
  simp [relay, h1, h2]

theorem relay_empty_request_eq (req : ChatRequest) (env : Env)
    (db : List StoredMessage) (h1 : req.method ≠ "OPTIONS")
    (h2 : req.bodyValid = true) (h3 : req.message = "" ∧ req.files = []) :
    relay req env db =
      { response := .err 500 "Either message or files must be provided"
        db := db, trace := [], geminiCall := none } := by
  simp [relay, h1, h2, h3]

theorem relay_no_auth_eq (req : ChatRequest) (env : Env)
    (db : List StoredMessage) (h1 : req.method ≠ "OPTIONS")
    (h2 : req.bodyValid = true) (h3 : ¬(req.message = "" ∧ req.files = []))
    (ha : req.authHeader = none) :
    relay req env db =
      { response := .err 500 "No authorization header", db := db
        trace := [], geminiCall := none } := by
  simp [relay, h1, h2, h3, ha]

theorem relay_auth_fail_eq (req : ChatRequest) (env : Env)
    (db : List StoredMessage) (a e : String) (h1 : req.method ≠ "OPTIONS")
    (h2 : req.bodyValid = true) (h3 : ¬(req.message = "" ∧ req.files = []))
    (ha : req.authHeader = some a)
    (hv : env.verifyUser (stripBearer a) = .error e) :
    relay req env db =
      { response := .err 500 ("User not authenticated: " ++ e), db := db
        trace := [.authenticate], geminiCall := none } := by
  simp [relay, h1, h2, h3, ha, hv]

theorem relay_no_key_eq (req : ChatRequest) (env : Env)
    (db : List StoredMessage) (a uid : String) (h1 : req.method ≠ "OPTIONS")
    (h2 : req.bodyValid = true) (h3 : ¬(req.message = "" ∧ req.files = []))
    (ha : req.authHeader = some a)
    (hv : env.verifyUser (stripBearer a) = .ok uid)
    (hk : env.geminiApiKey = none) :
    relay req env db =
      { response := .err 500 "Google Gemini API key not found", db := db
        trace := [.authenticate], geminiCall := none } := by
  simp [relay, h1, h2, h3, ha, hv, hk]

theorem relay_user_insert_fail_eq (req : ChatRequest) (env : Env)
    (db : List StoredMessage) (a uid k e : String)
    (h1 : req.method ≠ "OPTIONS") (h2 : req.bodyValid = true)
    (h3 : ¬(req.message = "" ∧ req.files = []))
    (ha : req.authHeader = some a)
    (hv : env.verifyUser (stripBearer a) = .ok uid)
    (hk : env.geminiApiKey = some k) (hu : env.userInsertError = some e) :
    relay req env db =
      { response := .err 500 e, db := db
        trace := [.authenticate, .persistUserMessage]
        geminiCall := none } := by
  simp [relay, h1, h2, h3, ha, hv, hk, hu]

theorem relay_gemini_fail_eq (req : ChatRequest) (env : Env)
    (db : List StoredMessage) (a uid k : String) (status : Nat) (text : String)
    (h1 : req.method ≠ "OPTIONS") (h2 : req.bodyValid = true)
    (h3 : ¬(req.message = "" ∧ req.files = []))
    (ha : req.authHeader = some a)
    (hv : env.verifyUser (stripBearer a) = .ok uid)
    (hk : env.geminiApiKey = some k) (hu : env.userInsertError = none)
    (hg : env.geminiResponse = .error (status, text)) :
    relay req env db =
      { response := .err 500
          ("Google Gemini API error: " ++ toString status ++ " " ++ text)
        db := db ++ [mkUserRow req uid db]
        trace := [.authenticate, .persistUserMessage, .fetchHistory,
          .callGenerationApi]
        geminiCall := some (geminiPayload req uid env db) } := by
  simp [relay, h1, h2, h3, ha, hv, hk, hu, hg]

theorem relay_assistant_insert_fail_eq (req : ChatRequest) (env : Env)
    (db : List StoredMessage) (a uid k reply e : String)
    (h1 : req.method ≠ "OPTIONS") (h2 : req.bodyValid = true)
    (h3 : ¬(req.message = "" ∧ req.files = []))
    (ha : req.authHeader = some a)
    (hv : env.verifyUser (stripBearer a) = .ok uid)
    (hk : env.geminiApiKey = some k) (hu : env.userInsertError = none)
    (hg : env.geminiResponse = .ok reply)
    (hA : env.assistantInsertError = some e) :
    relay req env db =
      { response := .err 500 e, db := db ++ [mkUserRow req uid db]
        trace := [.authenticate, .persistUserMessage, .fetchHistory,
          .callGenerationApi, .persistAssistantMessage]
        geminiCall := some (geminiPayload req uid env db) } := by
  simp [relay, h1, h2, h3, ha, hv, hk, hu, hg, hA]

theorem relay_success_eq (req : ChatRequest) (env : Env)
    (db : List StoredMessage) (a uid k reply : String)
    (h1 : req.method ≠ "OPTIONS") (h2 : req.bodyValid = true)
    (h3 : ¬(req.message = "" ∧ req.files = []))
    (ha : req.authHeader = some a)
    (hv : env.verifyUser (stripBearer a) = .ok uid)
    (hk : env.geminiApiKey = some k) (hu : env.userInsertError = none)
    (hg : env.geminiResponse = .ok reply)
    (hA : env.assistantInsertError = none) :
    relay req env db =
      { response := .ok reply
        db := (db ++ [mkUserRow req uid db]) ++
          [mkAssistantRow req uid reply (db ++ [mkUserRow req uid db])]
        trace := fullTrace
        geminiCall := some (geminiPayload req uid env db) } := by
  simp [relay, fullTrace, h1, h2, h3, ha, hv, hk, hu, hg, hA]

/-- Exhaustive case analysis of a relay run: exactly one of the ten
branches of the handler applies, and in each the result is the explicit
record of the corresponding branch lemma. -/
theorem relay_cases (req : ChatRequest) (env : Env) (db : List StoredMessage) :
    (req.method = "OPTIONS" ∧
      relay req env db =
        { response := .preflight, db := db, trace := [], geminiCall := none }) ∨
    (req.method ≠ "OPTIONS" ∧ req.bodyValid = false ∧
      relay req env db =
        { response := .err 500 "Invalid request body", db := db, trace := []
          geminiCall := none }) ∨
    (req.method ≠ "OPTIONS" ∧ req.bodyValid = true ∧
      (req.message = "" ∧ req.files = []) ∧
      relay req env db =
        { response := .err 500 "Either message or files must be provided"
          db := db, trace := [], geminiCall := none }) ∨
    (req.method ≠ "OPTIONS" ∧ req.bodyValid = true ∧
      ¬(req.message = "" ∧ req.files = []) ∧ req.authHeader = none ∧
      relay req env db =
        { response := .err 500 "No authorization header", db := db
          trace := [], geminiCall := none }) ∨
    (∃ a e, req.method ≠ "OPTIONS" ∧ req.bodyValid = true ∧
      ¬(req.message = "" ∧ req.files = []) ∧ req.authHeader = some a ∧
      env.verifyUser (stripBearer a) = .error e ∧
      relay req env db =
        { response := .err 500 ("User not authenticated: " ++ e), db := db
          trace := [.authenticate], geminiCall := none }) ∨
    (∃ a uid, req.method ≠ "OPTIONS" ∧ req.bodyValid = true ∧
      ¬(req.message = "" ∧ req.files = []) ∧ req.authHeader = some a ∧
      env.verifyUser (stripBearer a) = .ok uid ∧ env.geminiApiKey = none ∧
      relay req env db =
        { response := .err 500 "Google Gemini API key not found", db := db
          trace := [.authenticate], geminiCall := none }) ∨
    (∃ a uid k e, req.method ≠ "OPTIONS" ∧ req.bodyValid = true ∧
      ¬(req.message = "" ∧ req.files = []) ∧ req.authHeader = some a ∧
      env.verifyUser (stripBearer a) = .ok uid ∧ env.geminiApiKey = some k ∧
      env.userInsertError = some e ∧
      relay req env db =
        { response := .err 500 e, db := db
          trace := [.authenticate, .persistUserMessage]
          geminiCall := none }) ∨
    (∃ a uid k status text, req.method ≠ "OPTIONS" ∧ req.bodyValid = true ∧
      ¬(req.message = "" ∧ req.files = []) ∧ req.authHeader = some a ∧
      env.verifyUser (stripBearer a) = .ok uid ∧ env.geminiApiKey = some k ∧
      env.userInsertError = none ∧
      env.geminiResponse = .error (status, text) ∧
      relay req env db =
        { response := .err 500
            ("Google Gemini API error: " ++ toString status ++ " " ++ text)
          db := db ++ [mkUserRow req uid db]
          trace := [.authenticate, .persistUserMessage, .fetchHistory,
            .callGenerationApi]
          geminiCall := some (geminiPayload req uid env db) }) ∨
    (∃ a uid k reply e, req.method ≠ "OPTIONS" ∧ req.bodyValid = true ∧
      ¬(req.message = "" ∧ req.files = []) ∧ req.authHeader = some a ∧
      env.verifyUser (stripBearer a) = .ok uid ∧ env.geminiApiKey = some k ∧
      env.userInsertError = none ∧ env.geminiResponse = .ok reply ∧
      env.assistantInsertError = some e ∧
      relay req env db =
        { response := .err 500 e, db := db ++ [mkUserRow req uid db]
          trace := [.authenticate, .persistUserMessage, .fetchHistory,
            .callGenerationApi, .persistAssistantMessage]
          geminiCall := some (geminiPayload req uid env db) }) ∨
    (∃ a uid k reply, req.method ≠ "OPTIONS" ∧ req.bodyValid = true ∧
      ¬(req.message = "" ∧ req.files = []) ∧ req.authHeader = some a ∧
      env.verifyUser (stripBearer a) = .ok uid ∧ env.geminiApiKey = some k ∧
      env.userInsertError = none ∧ env.geminiResponse = .ok reply ∧
      env.assistantInsertError = none ∧
      relay req env db =
        { response := .ok reply
          db := (db ++ [mkUserRow req uid db]) ++
            [mkAssistantRow req uid reply (db ++ [mkUserRow req uid db])]
          trace := fullTrace
          geminiCall := some (geminiPayload req uid env db) }) := by
  by_cases h1 : req.method = "OPTIONS"
  · exact Or.inl ⟨h1, relay_options_eq req env db h1⟩
  by_cases h2 : req.bodyValid = false
  · exact Or.inr (Or.inl ⟨h1, h2, relay_invalid_body_eq req env db h1 h2⟩)
  have h2' : req.bodyValid = true := by
    revert h2; cases req.bodyValid <;> simp
  by_cases h3 : req.message = "" ∧ req.files = []
  · exact Or.inr (Or.inr (Or.inl
      ⟨h1, h2', h3, relay_empty_request_eq req env db h1 h2' h3⟩))
  cases ha : req.authHeader with
  | none =>
    exact Or.inr (Or.inr (Or.inr (Or.inl
      ⟨h1, h2', h3, rfl, relay_no_auth_eq req env db h1 h2' h3 ha⟩)))
  | some a =>
  cases hv : env.verifyUser (stripBearer a) with
  | error e =>
    exact Or.inr (Or.inr (Or.inr (Or.inr (Or.inl
      ⟨a, e, h1, h2', h3, rfl, hv,
        relay_auth_fail_eq req env db a e h1 h2' h3 ha hv⟩))))
  | ok uid =>
  cases hk : env.geminiApiKey with
  | none =>
    exact Or.inr (Or.inr (Or.inr (Or.inr (Or.inr (Or.inl
      ⟨a, uid, h1, h2', h3, rfl, hv, rfl,
        relay_no_key_eq req env db a uid h1 h2' h3 ha hv hk⟩)))))
  | some k =>
  cases hu : env.userInsertError with
  | some e =>
    exact Or.inr (Or.inr (Or.inr (Or.inr (Or.inr (Or.inr (Or.inl
      ⟨a, uid, k, e, h1, h2', h3, rfl, hv, rfl, rfl,
        relay_user_insert_fail_eq req env db a uid k e h1 h2' h3 ha hv hk
          hu⟩))))))
  | none =>
  cases hg : env.geminiResponse with
  | error p =>
    obtain ⟨status, text⟩ := p
    exact Or.inr (Or.inr (Or.inr (Or.inr (Or.inr (Or.inr (Or.inr (Or.inl
      ⟨a, uid, k, status, text, h1, h2', h3, rfl, hv, rfl, rfl, rfl,
        relay_gemini_fail_eq req env db a uid k status text h1 h2' h3 ha hv
          hk hu hg⟩)))))))
  | ok reply =>
  cases hA : env.assistantInsertError with
  | some e =>
    exact Or.inr (Or.inr (Or.inr (Or.inr (Or.inr (Or.inr (Or.inr (Or.inr
      (Or.inl ⟨a, uid, k, reply, e, h1, h2', h3, rfl, hv, rfl, rfl, rfl, rfl,
        relay_assistant_insert_fail_eq req env db a uid k reply e h1 h2' h3
          ha hv hk hu hg hA⟩))))))))
  | none =>
    exact Or.inr (Or.inr (Or.inr (Or.inr (Or.inr (Or.inr (Or.inr (Or.inr
      (Or.inr ⟨a, uid, k, reply, h1, h2', h3, rfl, hv, rfl, rfl, rfl, rfl,
        relay_success_eq req env db a uid k reply h1 h2' h3 ha hv hk hu hg
          hA⟩))))))))

/-! ## Claims -/

/-- **C1**: every successful chat request performs its steps in exactly
this order — authenticate via the JWT, persist the inbound user message,
fetch the conversation history, call the generation API, persist the
assistant reply, respond — with no step reordered or skipped, and the
text returned to the caller is the content of the assistant row that was
persisted last. -/
theorem relay_success_step_order (req : ChatRequest) (env : Env)
    (db : List StoredMessage) (t : String)
    (h : (relay req env db).response = .ok t) :
    (relay req env db).trace = fullTrace ∧
    ∃ row, (relay req env db).db.getLast? = some row ∧
      row.role = "assistant" ∧ row.content = t := by
  rcases relay_cases req env db with
    ⟨_, heq⟩ | ⟨_, _, heq⟩ | ⟨_, _, _, heq⟩ | ⟨_, _, _, _, heq⟩ |
    ⟨a, e, _, _, _, _, _, heq⟩ | ⟨a, uid, _, _, _, _, _, _, heq⟩ |
    ⟨a, uid, k, e, _, _, _, _, _, _, _, heq⟩ |
    ⟨a, uid, k, status, text, _, _, _, _, _, _, _, _, heq⟩ |
    ⟨a, uid, k, reply, e, _, _, _, _, _, _, _, _, _, heq⟩ |
    ⟨a, uid, k, reply, _, _, _, _, _, _, _, _, _, heq⟩
  · rw [heq] at h; simp at h
  · rw [heq] at h; simp at h
  · rw [heq] at h; simp at h
  · rw [heq] at h; simp at h
  · rw [heq] at h; simp at h
  · rw [heq] at h; simp at h
  · rw [heq] at h; simp at h
  · rw [heq] at h; simp at h
  · rw [heq] at h; simp at h
  · rw [heq] at h ⊢
    simp only [ChatResponse.ok.injEq] at h
    subst h
    exact ⟨rfl,
      ⟨mkAssistantRow req uid reply (db ++ [mkUserRow req uid db]), by simp,
        rfl, rfl⟩⟩

/-- Witness for C1: a concrete successful run. -/
theorem relay_success_step_order_witness :
    (relay exReq exEnv []).response = .ok "hello" ∧
    (relay exReq exEnv []).trace = fullTrace ∧
    ∃ row, (relay exReq exEnv []).db.getLast? = some row ∧
      row.role = "assistant" ∧ row.content = "hello" :=
  ⟨rfl, relay_success_step_order exReq exEnv [] "hello" rfl⟩

/-- Helper for C2: an element of the first `n` entries of the sorted list
is `created_at`-below every matching element left out of those entries. -/
theorem take_sorted_oldest (l : List StoredMessage) (n : Nat) :
    ∀ x ∈ (l.insertionSort createdLe).take n, ∀ y ∈ l,
      y ∉ (l.insertionSort createdLe).take n → createdLe x y := by
  intro x hx y hy hyn
  have hperm := List.perm_insertionSort createdLe l
  have hys : y ∈ l.insertionSort createdLe := hperm.mem_iff.mpr hy
  have hsorted : List.Pairwise createdLe (l.insertionSort createdLe) :=
    List.sorted_insertionSort createdLe l
  have hpw : List.Pairwise createdLe
      ((l.insertionSort createdLe).take n ++ (l.insertionSort createdLe).drop n) := by
    rw [List.take_append_drop]; exact hsorted
  have hyd : y ∈ (l.insertionSort createdLe).drop n := by
    have hmem : y ∈ (l.insertionSort createdLe).take n ++
        (l.insertionSort createdLe).drop n := by
      rw [List.take_append_drop]; exact hys
    rcases List.mem_append.mp hmem with hcase | hcase
    · exact absurd hcase hyn
    · exact hcase
  exact (List.pairwise_append.mp hpw).2.2 x hx y hyd

/-- **C2 counterexample**: for a conversation holding 21 messages, the
history query does not return the 20 most recently created ones — the
newest message is left out while the matching set contains it, and the
query result differs from the spec-worded "last 20" selection. -/
theorem historyQuery_not_most_recent :
    newestRow ∈ matchingMessages manyRows "c1" "u1" ∧
    newestRow ∉ historyQuery manyRows "c1" "u1" ∧
    historyQuery manyRows "c1" "u1" ≠ specLastN manyRows "c1" "u1" := by
  decide

/-- **C2** (amended): the history query returns the **first** 20 matching
messages in ascending `created_at` order — the 20 *oldest* — so for a
conversation holding more than 20 messages the context consists of the
earliest ones: the result is sorted ascending, has length
`min 20 (number of matching rows)`, and every returned row was created no
later than every matching row left out. -/
theorem historyQuery_takes_oldest (db : List StoredMessage) (cid uid : String) :
    List.Sorted createdLe (historyQuery db cid uid) ∧
    (historyQuery db cid uid).length =
      min 20 (matchingMessages db cid uid).length ∧
    (∀ x ∈ historyQuery db cid uid, ∀ y ∈ matchingMessages db cid uid,
      y ∉ historyQuery db cid uid → x.created_at ≤ y.created_at) := by
  refine ⟨?_, ?_, ?_⟩
  · exact (List.sorted_insertionSort createdLe
      (matchingMessages db cid uid)).sublist
      (List.take_sublist 20 ((matchingMessages db cid uid).insertionSort createdLe))
  · rw [historyQuery, List.length_take,
      (List.perm_insertionSort createdLe (matchingMessages db cid uid)).length_eq]
  · intro x hx y hy hyn
    exact take_sorted_oldest (matchingMessages db cid uid) 20 x hx y hy hyn

/-- Witness for C2 (amended): in the 21-message conversation the oldest
row is fetched, the newest is matching but not fetched, and the fetched
row is indeed no younger. -/
theorem historyQuery_takes_oldest_witness :
    oldestRow ∈ historyQuery manyRows "c1" "u1" ∧
    newestRow ∈ matchingMessages manyRows "c1" "u1" ∧
    newestRow ∉ historyQuery manyRows "c1" "u1" ∧
    oldestRow.created_at ≤ newestRow.created_at :=
  ⟨by decide, by decide, by decide,
    (historyQuery_takes_oldest manyRows "c1" "u1").2.2 oldestRow (by decide)
      newestRow (by decide) (by decide)⟩

/-- **C3 counterexample**: the migration's row-level-security policy on
`messages` does not enforce per-user visibility — its `USING` predicate
admits a row owned by `alice` to a request made as `bob`. -/
theorem messagesPolicy_admits_other_user :
    messagesPolicyUsing "bob" aliceRow = true ∧ aliceRow.user_id ≠ "bob" :=
  ⟨rfl, by decide⟩

/-- **C3** (amended): the relay's history reconstruction depends only on
rows whose `user_id` equals the authenticated user's id (and whose
`conversation_id` matches the request), but the database policy itself
enforces no restriction: its `USING` and `WITH CHECK` predicates accept
every row for every requester. -/
theorem history_scoped_to_user_policy_public :
    (∀ db cid uid, ∀ m ∈ historyQuery db cid uid,
      m.user_id = uid ∧ m.conversation_id = cid) ∧
    (∀ requester m, messagesPolicyUsing requester m = true ∧
      messagesPolicyWithCheck requester m = true) := by
  constructor
  · intro db cid uid m hm
    have hm' : m ∈ (matchingMessages db cid uid).insertionSort createdLe :=
      List.mem_of_mem_take hm
    have hm2 : m ∈ matchingMessages db cid uid :=
      (List.perm_insertionSort createdLe
        (matchingMessages db cid uid)).mem_iff.mp hm'
    simp only [matchingMessages, List.mem_filter, Bool.and_eq_true,
      beq_iff_eq] at hm2
    exact ⟨hm2.2.2, hm2.2.1⟩
  · intro requester m
    exact ⟨rfl, rfl⟩

/-- Witness for C3 (amended): in a database holding `alice`'s and `bob`'s
rows, a history fetch as `alice` yields only rows with `user_id = alice`. -/
theorem history_scoped_to_user_policy_public_witness :
    aliceRow ∈ historyQuery [aliceRow,
      { conversation_id := "c1", content := "x", role := "user"
        user_id := "bob", created_at := 2 }] "c1" "alice" ∧
    aliceRow.user_id = "alice" ∧ aliceRow.conversation_id = "c1" :=
  ⟨by decide,
    history_scoped_to_user_policy_public.1 [aliceRow,
      { conversation_id := "c1", content := "x", role := "user"
        user_id := "bob", created_at := 2 }] "c1" "alice" aliceRow (by decide)⟩

/-- **C4**: failure handling is exactly catch-and-report.  Outside the
CORS preflight, every run either succeeds or returns an HTTP 500 response
whose JSON body carries `success = false` and the error message of the
step that threw (shown for each throwing step: invalid body, missing
authorization header, failed JWT verification, missing API key, user
insert error, generation-API error); no step is ever retried (the trace
never repeats a step). -/
theorem relay_catch_and_report (req : ChatRequest) (env : Env)
    (db : List StoredMessage) (h1 : req.method ≠ "OPTIONS") :
    ((∃ t, (relay req env db).response = .ok t) ∨
      (∃ m, (relay req env db).response = .err 500 m)) ∧
    (∀ s m, (relay req env db).response = .err s m →
      s = 500 ∧ ((relay req env db).response).successFlag = some false) ∧
    (relay req env db).trace.Nodup ∧
    (req.bodyValid = false →
      (relay req env db).response = .err 500 "Invalid request body") ∧
    (req.bodyValid = true → ¬(req.message = "" ∧ req.files = []) →
      req.authHeader = none →
      (relay req env db).response = .err 500 "No authorization header") ∧
    (∀ a e, req.bodyValid = true → ¬(req.message = "" ∧ req.files = []) →
      req.authHeader = some a → env.verifyUser (stripBearer a) = .error e →
      (relay req env db).response =
        .err 500 ("User not authenticated: " ++ e)) ∧
    (∀ a uid, req.bodyValid = true → ¬(req.message = "" ∧ req.files = []) →
      req.authHeader = some a → env.verifyUser (stripBearer a) = .ok uid →
      env.geminiApiKey = none →
      (relay req env db).response =
        .err 500 "Google Gemini API key not found") ∧
    (∀ a uid k e, req.bodyValid = true → ¬(req.message = "" ∧ req.files = []) →
      req.authHeader = some a → env.verifyUser (stripBearer a) = .ok uid →
      env.geminiApiKey = some k → env.userInsertError = some e →
      (relay req env db).response = .err 500 e) ∧
    (∀ a uid k status text, req.bodyValid = true →
      ¬(req.message = "" ∧ req.files = []) →
      req.authHeader = some a → env.verifyUser (stripBearer a) = .ok uid →
      env.geminiApiKey = some k → env.userInsertError = none →
      env.geminiResponse = .error (status, text) →
      (relay req env db).response =
        .err 500 ("Google Gemini API error: " ++ toString status ++ " " ++
          text)) := by
  refine ⟨?_, ?_, ?_, ?_, ?_, ?_, ?_, ?_, ?_⟩
  · rcases relay_cases req env db with
      ⟨hm, heq⟩ | ⟨_, _, heq⟩ | ⟨_, _, _, heq⟩ | ⟨_, _, _, _, heq⟩ |
      ⟨a, e, _, _, _, _, _, heq⟩ | ⟨a, uid, _, _, _, _, _, _, heq⟩ |
      ⟨a, uid, k, e, _, _, _, _, _, _, _, heq⟩ |
      ⟨a, uid, k, status, text, _, _, _, _, _, _, _, _, heq⟩ |
      ⟨a, uid, k, reply, e, _, _, _, _, _, _, _, _, _, heq⟩ |
      ⟨a, uid, k, reply, _, _, _, _, _, _, _, _, _, heq⟩
    · exact absurd hm h1
    all_goals rw [heq]
    all_goals first
      | exact Or.inl ⟨_, rfl⟩
      | exact Or.inr ⟨_, rfl⟩
  · rcases relay_cases req env db with
      ⟨hm, heq⟩ | ⟨_, _, heq⟩ | ⟨_, _, _, heq⟩ | ⟨_, _, _, _, heq⟩ |
      ⟨a, e, _, _, _, _, _, heq⟩ | ⟨a, uid, _, _, _, _, _, _, heq⟩ |
      ⟨a, uid, k, e, _, _, _, _, _, _, _, heq⟩ |
      ⟨a, uid, k, status, text, _, _, _, _, _, _, _, _, heq⟩ |
      ⟨a, uid, k, reply, e, _, _, _, _, _, _, _, _, _, heq⟩ |
      ⟨a, uid, k, reply, _, _, _, _, _, _, _, _, _, heq⟩
    all_goals rw [heq]
    all_goals intro s m hsm
    all_goals simp_all [ChatResponse.successFlag]
  · rcases relay_cases req env db with
      ⟨hm, heq⟩ | ⟨_, _, heq⟩ | ⟨_, _, _, heq⟩ | ⟨_, _, _, _, heq⟩ |
      ⟨a, e, _, _, _, _, _, heq⟩ | ⟨a, uid, _, _, _, _, _, _, heq⟩ |
      ⟨a, uid, k, e, _, _, _, _, _, _, _, heq⟩ |
      ⟨a, uid, k, status, text, _, _, _, _, _, _, _, _, heq⟩ |
      ⟨a, uid, k, reply, e, _, _, _, _, _, _, _, _, _, heq⟩ |
      ⟨a, uid, k, reply, _, _, _, _, _, _, _, _, _, heq⟩
    all_goals rw [heq]
    all_goals simp [fullTrace]
  · intro hb
    rw [relay_invalid_body_eq req env db h1 hb]
  · intro hb h3 ha
    rw [relay_no_auth_eq req env db h1 hb h3 ha]
  · intro a e hb h3 ha hv
    rw [relay_auth_fail_eq req env db a e h1 hb h3 ha hv]
  · intro a uid hb h3 ha hv hk
    rw [relay_no_key_eq req env db a uid h1 hb h3 ha hv hk]
  · intro a uid k e hb h3 ha hv hk hu
    rw [relay_user_insert_fail_eq req env db a uid k e h1 hb h3 ha hv hk hu]
  · intro a uid k status text hb h3 ha hv hk hu hg
    rw [relay_gemini_fail_eq req env db a uid k status text h1 hb h3 ha hv hk
      hu hg]

/-- Witness for C4: a run whose generation-API call fails returns the 500
catch-block response with the API error message, and its trace repeats no
step. -/
theorem relay_catch_and_report_witness :
    (relay exReq exEnvGeminiFail []).response =
      .err 500 ("Google Gemini API error: " ++ toString 503 ++ " " ++
        "overloaded") ∧
    (relay exReq exEnvGeminiFail []).trace.Nodup :=
  ⟨(relay_catch_and_report exReq exEnvGeminiFail [] (by decide)).2.2.2.2.2.2.2.2
      "Bearer tok" "alice" "key" 503 "overloaded" rfl (by decide) rfl rfl rfl
      rfl rfl,
    (relay_catch_and_report exReq exEnvGeminiFail [] (by decide)).2.2.1⟩

/-- **C7**: authentication precedes persistence — a request without an
`authorization` header, or whose JWT fails verification, yields an error
response and leaves the stored messages unchanged. -/
theorem relay_auth_precedes_persistence (req : ChatRequest) (env : Env)
    (db : List StoredMessage) (h1 : req.method ≠ "OPTIONS")
    (hauth : req.authHeader = none ∨
      ∃ a e, req.authHeader = some a ∧
        env.verifyUser (stripBearer a) = .error e) :
    (∃ m, (relay req env db).response = .err 500 m) ∧
    (relay req env db).db = db := by
  rcases relay_cases req env db with
      ⟨hm, heq⟩ | ⟨_, _, heq⟩ | ⟨_, _, _, heq⟩ | ⟨_, _, _, _, heq⟩ |
      ⟨a, e, _, _, _, _, _, heq⟩ | ⟨a, uid, _, _, _, ha, hv, _, heq⟩ |
      ⟨a, uid, k, e, _, _, _, ha, hv, _, _, heq⟩ |
      ⟨a, uid, k, status, text, _, _, _, ha, hv, _, _, _, heq⟩ |
      ⟨a, uid, k, reply, e, _, _, _, ha, hv, _, _, _, _, heq⟩ |
      ⟨a, uid, k, reply, _, _, _, ha, hv, _, _, _, _, heq⟩
  · exact absurd hm h1
  · rw [heq]; exact ⟨⟨_, rfl⟩, rfl⟩
  · rw [heq]; exact ⟨⟨_, rfl⟩, rfl⟩
  · rw [heq]; exact ⟨⟨_, rfl⟩, rfl⟩
  · rw [heq]; exact ⟨⟨_, rfl⟩, rfl⟩
  all_goals
    rcases hauth with hnone | ⟨a', e', ha', hv'⟩
  all_goals first
    | (rw [ha] at hnone; exact absurd hnone (by simp))
    | (rw [ha] at ha'
       have haa : a = a' := by injection ha'
       rw [← haa] at hv'
       rw [hv] at hv'
       exact absurd hv' (by simp))

/-- Witness for C7: a request without an authorization header errors and
inserts nothing. -/
theorem relay_auth_precedes_persistence_witness :
    (∃ m, (relay exReqNoAuth exEnv []).response = .err 500 m) ∧
    (relay exReqNoAuth exEnv []).db = [] :=
  relay_auth_precedes_persistence exReqNoAuth exEnv [] (by decide)
    (Or.inl rfl)

/-- **C8**: the relay is not atomic across the external call — when the
generation API fails after the inbound user message was successfully
inserted, the relay reports the failure with `success = false` but the
user message stays in the table; the error path performs no rollback. -/
theorem relay_no_rollback_on_gemini_failure (req : ChatRequest) (env : Env)
    (db : List StoredMessage) (a uid k : String) (status : Nat)
    (text : String) (h1 : req.method ≠ "OPTIONS") (h2 : req.bodyValid = true)
    (h3 : ¬(req.message = "" ∧ req.files = []))
    (ha : req.authHeader = some a)
    (hv : env.verifyUser (stripBearer a) = .ok uid)
    (hk : env.geminiApiKey = some k) (hu : env.userInsertError = none)
    (hg : env.geminiResponse = .error (status, text)) :
    (relay req env db).response =
      .err 500 ("Google Gemini API error: " ++ toString status ++ " " ++
        text) ∧
    ((relay req env db).response).successFlag = some false ∧
    (relay req env db).db = db ++ [mkUserRow req uid db] ∧
    mkUserRow req uid db ∈ (relay req env db).db := by
  rw [relay_gemini_fail_eq req env db a uid k status text h1 h2 h3 ha hv hk
    hu hg]
  exact ⟨rfl, rfl, rfl, by simp⟩

/-- Witness for C8: with a failing generation API, the concrete run keeps
the inserted user row and reports the error. -/
theorem relay_no_rollback_on_gemini_failure_witness :
    (relay exReq exEnvGeminiFail []).response =
      .err 500 ("Google Gemini API error: " ++ toString 503 ++ " " ++
        "overloaded") ∧
    ((relay exReq exEnvGeminiFail []).response).successFlag = some false ∧
    (relay exReq exEnvGeminiFail []).db = [] ++ [mkUserRow exReq "alice" []] ∧
    mkUserRow exReq "alice" [] ∈ (relay exReq exEnvGeminiFail []).db :=
  relay_no_rollback_on_gemini_failure exReq exEnvGeminiFail [] "Bearer tok"
    "alice" "key" 503 "overloaded" (by decide) rfl (by decide) rfl rfl rfl
    rfl rfl

/-- Helper: when the history query errors, the `(messages || [])` default
makes the context empty, so the payload holds only the current message. -/
theorem geminiPayload_history_error (req : ChatRequest) (uid : String)
    (env : Env) (db : List StoredMessage) (hh : env.historyError = true) :
    geminiPayload req uid env db =
      { systemInstruction := systemInstructionText
        contents := [{ role := "user"
                       parts := currentMessageParts req.message req.files }] } := by
  simp [geminiPayload, hh, geminiMessages]

/-- Helper: the last element of the payload's `contents` is always the
current message. -/
theorem geminiPayload_contents_getLast (req : ChatRequest) (uid : String)
    (env : Env) (db : List StoredMessage) :
    (geminiPayload req uid env db).contents.getLast? =
      some { role := "user"
             parts := currentMessageParts req.message req.files } := by
  simp [geminiPayload]

/-- **C9**: a failing history fetch is non-fatal — the relay still calls
the generation API, with an empty context, so the request holds only the
current message. -/
theorem relay_history_failure_nonfatal (req : ChatRequest) (env : Env)
    (db : List StoredMessage) (a uid k : String)
    (h1 : req.method ≠ "OPTIONS") (h2 : req.bodyValid = true)
    (h3 : ¬(req.message = "" ∧ req.files = []))
    (ha : req.authHeader = some a)
    (hv : env.verifyUser (stripBearer a) = .ok uid)
    (hk : env.geminiApiKey = some k) (hu : env.userInsertError = none)
    (hh : env.historyError = true) :
    (relay req env db).geminiCall =
      some { systemInstruction := systemInstructionText
             contents := [{ role := "user"
                            parts := currentMessageParts req.message
                              req.files }] } ∧
    Step.callGenerationApi ∈ (relay req env db).trace := by
  cases hg : env.geminiResponse with
  | error p =>
    obtain ⟨status, text⟩ := p
    rw [relay_gemini_fail_eq req env db a uid k status text h1 h2 h3 ha hv hk
      hu hg]
    exact ⟨by rw [geminiPayload_history_error req uid env db hh], by simp⟩
  | ok reply =>
    cases hA : env.assistantInsertError with
    | some e =>
      rw [relay_assistant_insert_fail_eq req env db a uid k reply e h1 h2 h3
        ha hv hk hu hg hA]
      exact ⟨by rw [geminiPayload_history_error req uid env db hh], by simp⟩
    | none =>
      rw [relay_success_eq req env db a uid k reply h1 h2 h3 ha hv hk hu hg
        hA]
      exact ⟨by rw [geminiPayload_history_error req uid env db hh],
        by simp [fullTrace]⟩

/-- Witness for C9: with a failing history query, the concrete run calls
the generation API with only the current message. -/
theorem relay_history_failure_nonfatal_witness :
    (relay exReq exEnvHistFail []).geminiCall =
      some { systemInstruction := systemInstructionText
             contents := [{ role := "user"
                            parts := currentMessageParts exReq.message
                              exReq.files }] } ∧
    Step.callGenerationApi ∈ (relay exReq exEnvHistFail []).trace :=
  relay_history_failure_nonfatal exReq exEnvHistFail [] "Bearer tok" "alice"
    "key" (by decide) rfl (by decide) rfl rfl rfl rfl rfl

/-- **C10**: an empty message with no files is rejected with an error; an
empty message with at least one file stores the placeholder
`[Image analysis requested]` as the user message and sends
`Please analyze this image.` (followed by the image parts) as the current
message to the generation API. -/
theorem relay_image_only_request (req : ChatRequest) (env : Env)
    (db : List StoredMessage) (a uid k : String)
    (h1 : req.method ≠ "OPTIONS") (h2 : req.bodyValid = true) :
    (req.message = "" ∧ req.files = [] →
      (relay req env db).response =
        .err 500 "Either message or files must be provided") ∧
    (req.message = "" → req.files ≠ [] → req.authHeader = some a →
      env.verifyUser (stripBearer a) = .ok uid → env.geminiApiKey = some k →
      env.userInsertError = none →
      mkUserRow req uid db ∈ (relay req env db).db ∧
      (mkUserRow req uid db).content = "[Image analysis requested]" ∧
      ∃ g, (relay req env db).geminiCall = some g ∧
        g.contents.getLast? =
          some { role := "user"
                 parts := Part.text "Please analyze this image." ::
                   imageParts req.files }) := by
  constructor
  · intro h3
    rw [relay_empty_request_eq req env db h1 h2 h3]
  · intro hmsg hfiles ha hv hk hu
    have h3 : ¬(req.message = "" ∧ req.files = []) := fun hc => hfiles hc.2
    have hcontent : (mkUserRow req uid db).content =
        "[Image analysis requested]" := by
      simp [mkUserRow, messageContent, hmsg]
    have hparts : currentMessageParts req.message req.files =
        Part.text "Please analyze this image." :: imageParts req.files := by
      simp [currentMessageParts, hmsg]
    have hlast : (geminiPayload req uid env db).contents.getLast? =
        some { role := "user"
               parts := Part.text "Please analyze this image." ::
                 imageParts req.files } := by
      rw [geminiPayload_contents_getLast req uid env db, hparts]
    cases hg : env.geminiResponse with
    | error p =>
      obtain ⟨status, text⟩ := p
      rw [relay_gemini_fail_eq req env db a uid k status text h1 h2 h3 ha hv
        hk hu hg]
      exact ⟨by simp, hcontent, geminiPayload req uid env db, rfl, hlast⟩
    | ok reply =>
      cases hA : env.assistantInsertError with
      | some e =>
        rw [relay_assistant_insert_fail_eq req env db a uid k reply e h1 h2
          h3 ha hv hk hu hg hA]
        exact ⟨by simp, hcontent, geminiPayload req uid env db, rfl, hlast⟩
      | none =>
        rw [relay_success_eq req env db a uid k reply h1 h2 h3 ha hv hk hu hg
          hA]
        exact ⟨by simp, hcontent, geminiPayload req uid env db, rfl, hlast⟩

/-- Witness for C10: a request with no message and no files is rejected,
and an image-only request stores the placeholder and sends the analysis
prompt. -/
theorem relay_image_only_request_witness :
    (relay exReqEmpty exEnv []).response =
      .err 500 "Either message or files must be provided" ∧
    mkUserRow exReqImageOnly "alice" [] ∈ (relay exReqImageOnly exEnv []).db ∧
    (mkUserRow exReqImageOnly "alice" []).content =
      "[Image analysis requested]" ∧
    ∃ g, (relay exReqImageOnly exEnv []).geminiCall = some g ∧
      g.contents.getLast? =
        some { role := "user"
               parts := Part.text "Please analyze this image." ::
                 imageParts exReqImageOnly.files } :=
  ⟨(relay_image_only_request exReqEmpty exEnv [] "Bearer tok" "alice" "key"
      (by decide) rfl).1 (by decide),
    (relay_image_only_request exReqImageOnly exEnv [] "Bearer tok" "alice"
      "key" (by decide) rfl).2 rfl (by decide) rfl rfl rfl rfl⟩

/-- **C5**: every row the relay adds has role `user` or `assistant`, and
the schema's `CHECK` constraint accepts exactly those two roles. -/
theorem message_roles_valid :
    (∀ req env db m, m ∈ (relay req env db).db →
      m ∈ db ∨ roleCheck m.role = true) ∧
    (∀ r, roleCheck r = true ↔ (r = "user" ∨ r = "assistant")) ∧
    (∀ req env db m, m ∈ (relay req env db).db → m ∉ db →
      (m.role = "user" ∨ m.role = "assistant")) := by
  have base : ∀ req env db m, m ∈ (relay req env db).db →
      m ∈ db ∨ roleCheck m.role = true := by
    intro req env db m hm
    rcases relay_cases req env db with
      ⟨_, heq⟩ | ⟨_, _, heq⟩ | ⟨_, _, _, heq⟩ | ⟨_, _, _, _, heq⟩ |
      ⟨a, e, _, _, _, _, _, heq⟩ | ⟨a, uid, _, _, _, _, _, _, heq⟩ |
      ⟨a, uid, k, e, _, _, _, _, _, _, _, heq⟩ |
      ⟨a, uid, k, status, text, _, _, _, _, _, _, _, _, heq⟩ |
      ⟨a, uid, k, reply, e, _, _, _, _, _, _, _, _, _, heq⟩ |
      ⟨a, uid, k, reply, _, _, _, _, _, _, _, _, _, heq⟩
    · rw [heq] at hm; exact Or.inl hm
    · rw [heq] at hm; exact Or.inl hm
    · rw [heq] at hm; exact Or.inl hm
    · rw [heq] at hm; exact Or.inl hm
    · rw [heq] at hm; exact Or.inl hm
    · rw [heq] at hm; exact Or.inl hm
    · rw [heq] at hm; exact Or.inl hm
    · rw [heq] at hm
      rcases List.mem_append.mp hm with h | h
      · exact Or.inl h
      · have hmu : m = mkUserRow req uid db := by simpa using h
        rw [hmu]; exact Or.inr rfl
    · rw [heq] at hm
      rcases List.mem_append.mp hm with h | h
      · exact Or.inl h
      · have hmu : m = mkUserRow req uid db := by simpa using h
        rw [hmu]; exact Or.inr rfl
    · rw [heq] at hm
      rcases List.mem_append.mp hm with h | h
      · rcases List.mem_append.mp h with h' | h'
        · exact Or.inl h'
        · have hmu : m = mkUserRow req uid db := by simpa using h'
          rw [hmu]; exact Or.inr rfl
      · have hma : m = mkAssistantRow req uid reply
            (db ++ [mkUserRow req uid db]) := by simpa using h
        rw [hma]; exact Or.inr rfl
  have hiff : ∀ r, roleCheck r = true ↔ (r = "user" ∨ r = "assistant") := by
    intro r
    simp [roleCheck]
  exact ⟨base, hiff, fun req env db m hm hnot =>
    (hiff m.role).mp ((base req env db m hm).resolve_left hnot)⟩

/-- Witness for C5: the row the concrete run inserts for the user message
is not a pre-existing row, and its role passes the `CHECK` constraint. -/
theorem message_roles_valid_witness :
    mkUserRow exReq "alice" [] ∈ (relay exReq exEnv []).db ∧
    (mkUserRow exReq "alice" [] ∈ ([] : List StoredMessage) ∨
      roleCheck (mkUserRow exReq "alice" []).role = true) ∧
    (roleCheck "user" = true ↔ ("user" = "user" ∨ "user" = "assistant")) :=
  ⟨by decide,
    message_roles_valid.1 exReq exEnv [] (mkUserRow exReq "alice" [])
      (by decide),
    message_roles_valid.2.1 "user"⟩

/-- **C6**: with referential integrity and unique conversation ids, every
message belongs to exactly one conversation; deleting a conversation
removes exactly its messages, and afterwards no message references a
nonexistent conversation. -/
theorem message_conversation_fk_cascade (convs : List Conversation)
    (msgs : List StoredMessage) (cid : String)
    (hri : refIntegrity convs msgs)
    (hnd : (convs.map (fun c => c.id)).Nodup) :
    (∀ m ∈ msgs, ∃! c, c ∈ convs ∧ c.id = m.conversation_id) ∧
    refIntegrity (deleteConversation cid convs msgs).1
      (deleteConversation cid convs msgs).2 ∧
    (∀ m ∈ (deleteConversation cid convs msgs).2,
      m.conversation_id ≠ cid) ∧
    (∀ m ∈ msgs, m.conversation_id ≠ cid →
      m ∈ (deleteConversation cid convs msgs).2) ∧
    (∀ c ∈ (deleteConversation cid convs msgs).1, c.id ≠ cid) := by
  refine ⟨?_, ?_, ?_, ?_, ?_⟩
  · intro m hm
    obtain ⟨c, hc, hcid⟩ := hri m hm
    refine ⟨c, ⟨hc, hcid⟩, ?_⟩
    rintro c' ⟨hc', hcid'⟩
    exact List.inj_on_of_nodup_map hnd hc' hc (by rw [hcid', hcid])
  · intro m hm
    simp only [deleteConversation, List.mem_filter, bne_iff_ne, ne_eq] at hm
    obtain ⟨c, hc, hcid⟩ := hri m hm.1
    refine ⟨c, ?_, hcid⟩
    simp only [deleteConversation, List.mem_filter, bne_iff_ne, ne_eq]
    exact ⟨hc, by rw [hcid]; exact hm.2⟩
  · intro m hm
    simp only [deleteConversation, List.mem_filter, bne_iff_ne, ne_eq] at hm
    exact hm.2
  · intro m hm hne
    simp only [deleteConversation, List.mem_filter, bne_iff_ne, ne_eq]
    exact ⟨hm, hne⟩
  · intro c hc
    simp only [deleteConversation, List.mem_filter, bne_iff_ne, ne_eq] at hc
    exact hc.2

/-- A conversation row with id `c1`. -/
def exConv : Conversation :=
  { id := "c1", title := "t", created_at := 0, updated_at := 0 }

/-- A conversation row with id `c2`. -/
def exConv2 : Conversation :=
  { id := "c2", title := "t", created_at := 0, updated_at := 0 }

/-- A message table referencing both conversations. -/
def exMsgs : List StoredMessage :=
  [aliceRow,
   { conversation_id := "c2", content := "x", role := "assistant"
     user_id := "alice", created_at := 2 }]

/-- Witness for C6: deleting conversation `c1` from a concrete two-row
table preserves referential integrity. -/
theorem message_conversation_fk_cascade_witness :
    refIntegrity [exConv, exConv2] exMsgs ∧
    refIntegrity (deleteConversation "c1" [exConv, exConv2] exMsgs).1
      (deleteConversation "c1" [exConv, exConv2] exMsgs).2 :=
  ⟨by unfold refIntegrity; decide,
    (message_conversation_fk_cascade [exConv, exConv2] exMsgs "c1"
      (by unfold refIntegrity; decide) (by decide)).2.1⟩

end IKE
